import Mathlib

/-!
Shallow embedding of `src/bootloader/createDiskImage.py`, the disk-image
assembler of the x86_64-kernel bootloader, together with theorems settling
the specification's claims about it.

Bytes are modelled as natural numbers below 256; byte streams as `List Nat`.
Python's `int.to_bytes(len, byteorder="little")` is modelled by `toBytesLE`,
which fails (Python raises `OverflowError`) when the value does not fit.
The script's top-level flow is modelled by `createDiskImage`, which returns
the exit status together with the bytes written to the output file
(`none` when the output file was never opened).
-/

namespace DiskImage

/-- Little-endian base-256 digits of `v`, exactly `len` bytes long
(the digit list of `int.to_bytes(len, byteorder="little")` when it succeeds). -/
def toBytesLEAux : Nat → Nat → List Nat
  | _, 0 => []
  | v, n + 1 => v % 256 :: toBytesLEAux (v / 256) n

/-- Python `v.to_bytes(len, byteorder="little")`: raises `OverflowError`
(modelled as `Except.error`) unless `v < 256 ^ len`. -/
def toBytesLE (v len : Nat) : Except String (List Nat) :=
  if v < 256 ^ len then Except.ok (toBytesLEAux v len) else Except.error "OverflowError"

/-- Little-endian decoding of a byte list back to a natural number
(`int.from_bytes(bs, byteorder="little")`). -/
def decodeLE : List Nat → Nat
  | [] => 0
  | b :: rest => b + 256 * decodeLE rest

/-- The magic signature of the metadata sector (`0x617461646174656d`,
ASCII "metadata" read little-endian). -/
def magicNumber : Nat := 0x617461646174656d

/-- The kernel start "sector" as the script computes it:
`kernelImageDiskOffset = stage0Size + stage1Size + 1`, then
`kernelImageDiskOffset // 512 + kernelImageDiskOffset % 512`. -/
def kernelImageStartSec (stage0Size stage1Size : Nat) : Nat :=
  let kernelImageDiskOffset := stage0Size + stage1Size + 1
  kernelImageDiskOffset / 512 + kernelImageDiskOffset % 512

/-- Modelled from the spec: the kernel start sector the spec says an
implementer should compute instead, `ceil((512 + S1) / 512) + 1`. -/
def specKernelStartSec (stage1Size : Nat) : Nat :=
  (512 + stage1Size + 511) / 512 + 1

/-- The metadata header before padding: magic, kernel start sector and
kernel size, each as 8 little-endian bytes, appended in the source's order
(the first failing `to_bytes` call aborts the run). -/
def metadataHeader (stage0Size stage1Size kernelImageSize : Nat) :
    Except String (List Nat) :=
  match toBytesLE magicNumber 8 with
  | Except.error e => Except.error e
  | Except.ok magic =>
    match toBytesLE (kernelImageStartSec stage0Size stage1Size) 8 with
    | Except.error e => Except.error e
    | Except.ok start =>
      match toBytesLE kernelImageSize 8 with
      | Except.error e => Except.error e
      | Except.ok size => Except.ok (magic ++ start ++ size)

/-- The full metadata sector: the header, rejected with a fatal error if it
exceeds 512 bytes, then zero-padded to 512 bytes. -/
def metadataSec (stage0Size stage1Size kernelImageSize : Nat) :
    Except String (List Nat) :=
  match metadataHeader stage0Size stage1Size kernelImageSize with
  | Except.error e => Except.error e
  | Except.ok hdr =>
    if hdr.length > 512 then
      Except.error "Metadata is bigger than a sector"
    else
      Except.ok (hdr ++ List.replicate (512 - hdr.length) 0)

/-- Result of one run of the script: whether it exited with status 0, and the
bytes written to the output file (`none` when the file was never opened). -/
structure RunResult where
  exitOk : Bool
  output : Option (List Nat)
deriving Repr, DecidableEq

/-- The `__main__` flow of `createDiskImage.py` on the three input byte
streams: reject a stage-0 image that is not exactly 512 bytes before opening
the output, then write stage 0, stage 1, the metadata sector, the kernel and
`512 - K % 512` zero padding bytes, and finally assert that the output length
is a multiple of 512 (a failed `assert` exits non-zero). -/
def createDiskImage (stage0 stage1 kernel : List Nat) : RunResult :=
  let stage0Size := stage0.length
  let stage1Size := stage1.length
  if stage0Size ≠ 512 then
    { exitOk := false, output := none }
  else
    let fd := stage0 ++ stage1
    match metadataSec stage0Size stage1Size kernel.length with
    | Except.error _ => { exitOk := false, output := some fd }
    | Except.ok m =>
      let kernelImageSize := kernel.length
      let paddingLen := 512 - kernelImageSize % 512
      let fd := fd ++ m ++ kernel ++ List.replicate paddingLen 0
      { exitOk := fd.length % 512 == 0, output := some fd }

/-! ### Basic lemmas about the embedding -/

theorem toBytesLEAux_length (v n : Nat) : (toBytesLEAux v n).length = n := by
  induction n generalizing v with
  | zero => rfl
  | succ n ih => simp [toBytesLEAux, ih]

theorem toBytesLE_ok {v n : Nat} (h : v < 256 ^ n) :
    toBytesLE v n = Except.ok (toBytesLEAux v n) := by
  simp [toBytesLE, h]

theorem decodeLE_toBytesLEAux (n : Nat) (v : Nat) (h : v < 256 ^ n) :
    decodeLE (toBytesLEAux v n) = v := by
  induction n generalizing v with
  | zero =>
    interval_cases v
    rfl
  | succ n ih =>
    have hdiv : v / 256 < 256 ^ n := by
      rw [Nat.div_lt_iff_lt_mul (by norm_num)]
      calc v < 256 ^ (n + 1) := h
        _ = 256 ^ n * 256 := by ring
    simp only [toBytesLEAux, decodeLE, ih (v / 256) hdiv]
    omega

theorem magicNumber_lt : magicNumber < 256 ^ 8 := by decide

theorem metadataHeader_eq (s0 s1 k : Nat)
    (h1 : kernelImageStartSec s0 s1 < 256 ^ 8) (hk : k < 256 ^ 8) :
    metadataHeader s0 s1 k =
      Except.ok (toBytesLEAux magicNumber 8 ++
        toBytesLEAux (kernelImageStartSec s0 s1) 8 ++ toBytesLEAux k 8) := by
  simp [metadataHeader, toBytesLE_ok magicNumber_lt, toBytesLE_ok h1, toBytesLE_ok hk]

theorem metadataSec_eq (s0 s1 k : Nat)
    (h1 : kernelImageStartSec s0 s1 < 256 ^ 8) (hk : k < 256 ^ 8) :
    metadataSec s0 s1 k =
      Except.ok (toBytesLEAux magicNumber 8 ++
        toBytesLEAux (kernelImageStartSec s0 s1) 8 ++ toBytesLEAux k 8 ++
        List.replicate 488 0) := by
  have hlen : (toBytesLEAux magicNumber 8 ++
      toBytesLEAux (kernelImageStartSec s0 s1) 8 ++ toBytesLEAux k 8).length = 24 := by
    simp [toBytesLEAux_length]
  unfold metadataSec
  rw [metadataHeader_eq s0 s1 k h1 hk]
  dsimp only
  rw [hlen]
  norm_num [List.append_assoc]

theorem metadataSec_length {s0 s1 k : Nat} {m : List Nat}
    (h : metadataSec s0 s1 k = Except.ok m) : m.length = 512 := by
  unfold metadataSec at h
  cases hh : metadataHeader s0 s1 k with
  | error e => rw [hh] at h; exact absurd h (by simp)
  | ok hdr =>
    rw [hh] at h
    by_cases hgt : hdr.length > 512
    · simp [hgt] at h
    · simp only [hgt, if_false] at h
      cases h
      simp only [List.length_append, List.length_replicate]
      omega

/-- Structure of a successful run: output file is stage 0, stage 1, the
metadata sector, the kernel and the zero padding, concatenated in order. -/
theorem createDiskImage_valid (stage0 stage1 kernel : List Nat)
    (h0 : stage0.length = 512)
    (h1 : kernelImageStartSec 512 stage1.length < 256 ^ 8)
    (hk : kernel.length < 256 ^ 8) :
    ∃ m, metadataSec 512 stage1.length kernel.length = Except.ok m ∧
      createDiskImage stage0 stage1 kernel =
        { exitOk := ((stage0 ++ stage1 ++ m ++ kernel ++
            List.replicate (512 - kernel.length % 512) 0).length % 512 == 0),
          output := some (stage0 ++ stage1 ++ m ++ kernel ++
            List.replicate (512 - kernel.length % 512) 0) } := by
  refine ⟨_, metadataSec_eq 512 stage1.length kernel.length h1 hk, ?_⟩
  unfold createDiskImage
  simp only [h0, ne_eq, not_true_eq_false, if_false,
    metadataSec_eq 512 stage1.length kernel.length h1 hk]

theorem toBytesLE_length {v n : Nat} {bs : List Nat}
    (h : toBytesLE v n = Except.ok bs) : bs.length = n := by
  unfold toBytesLE at h
  by_cases hv : v < 256 ^ n
  · rw [if_pos hv] at h
    cases h
    exact toBytesLEAux_length v n
  · rw [if_neg hv] at h
    exact absurd h (by simp)

theorem toBytesLE_error {v n : Nat} {e : String}
    (h : toBytesLE v n = Except.error e) : e = "OverflowError" := by
  unfold toBytesLE at h
  by_cases hv : v < 256 ^ n
  · rw [if_pos hv] at h
    exact absurd h (by simp)
  · rw [if_neg hv] at h
    injection h with h
    exact h.symm

theorem metadataHeader_ok_length {s0 s1 k : Nat} {hdr : List Nat}
    (h : metadataHeader s0 s1 k = Except.ok hdr) : hdr.length = 24 := by
  unfold metadataHeader at h
  cases hA : toBytesLE magicNumber 8 with
  | error e => rw [hA] at h; exact absurd h (by simp)
  | ok a =>
    rw [hA] at h
    cases hB : toBytesLE (kernelImageStartSec s0 s1) 8 with
    | error e => rw [hB] at h; exact absurd h (by simp)
    | ok b =>
      rw [hB] at h
      cases hC : toBytesLE k 8 with
      | error e => rw [hC] at h; exact absurd h (by simp)
      | ok c =>
        rw [hC] at h
        injection h with h
        rw [← h, List.length_append, List.length_append,
          toBytesLE_length hA, toBytesLE_length hB, toBytesLE_length hC]

theorem metadataHeader_error_overflow {s0 s1 k : Nat} {e : String}
    (h : metadataHeader s0 s1 k = Except.error e) : e = "OverflowError" := by
  unfold metadataHeader at h
  cases hA : toBytesLE magicNumber 8 with
  | error eA =>
    rw [hA] at h
    injection h with h
    rw [← h]
    exact toBytesLE_error hA
  | ok a =>
    rw [hA] at h
    cases hB : toBytesLE (kernelImageStartSec s0 s1) 8 with
    | error eB =>
      rw [hB] at h
      injection h with h
      rw [← h]
      exact toBytesLE_error hB
    | ok b =>
      rw [hB] at h
      cases hC : toBytesLE k 8 with
      | error eC =>
        rw [hC] at h
        injection h with h
        rw [← h]
        exact toBytesLE_error hC
      | ok c =>
        rw [hC] at h
        exact absurd h (by simp)

/-! ### Claim theorems -/

/-- C5: a stage-0 image whose byte length is not exactly 512 makes the
assembler exit non-zero before the output file is opened: no output is
produced (a pre-existing file at the output path is left untouched). -/
theorem stage0_wrong_size_rejected (stage0 stage1 kernel : List Nat)
    (h : stage0.length ≠ 512) :
    createDiskImage stage0 stage1 kernel = { exitOk := false, output := none } := by
  unfold createDiskImage
  simp [h]

theorem stage0_wrong_size_rejected_witness :
    [0, 0, 0].length ≠ 512 ∧
      createDiskImage [0, 0, 0] [1] [2] = { exitOk := false, output := none } :=
  ⟨by decide, stage0_wrong_size_rejected [0, 0, 0] [1] [2] (by decide)⟩

/-- C10: the assembler's output is a deterministic function of the three
input byte streams: two runs on byte-identical stage-0, stage-1 and kernel
inputs produce identical results (exit status and output file bytes). -/
theorem deterministic_output (s0 s1 k s0' s1' k' : List Nat)
    (h0 : s0 = s0') (h1 : s1 = s1') (h2 : k = k') :
    createDiskImage s0 s1 k = createDiskImage s0' s1' k' := by
  rw [h0, h1, h2]

theorem deterministic_output_witness :
    createDiskImage (List.replicate 512 0) [1, 2] [3] =
      createDiskImage (List.replicate 512 0) [1, 2] [3] :=
  deterministic_output (List.replicate 512 0) [1, 2] [3]
    (List.replicate 512 0) [1, 2] [3] rfl rfl rfl

/-- C9: the defensive "metadata is bigger than a sector" branch is
unreachable: the pre-padding metadata header, whenever it is assembled at
all, is exactly 24 bytes long, and `metadataSec` never returns that fatal
error, for any stage-0 size, stage-1 size and kernel size whatsoever. -/
theorem metadata_overflow_unreachable (s0 s1 k : Nat) :
    (∀ hdr, metadataHeader s0 s1 k = Except.ok hdr → hdr.length = 24) ∧
      metadataSec s0 s1 k ≠ Except.error "Metadata is bigger than a sector" := by
  constructor
  · intro hdr h
    exact metadataHeader_ok_length h
  · intro hbad
    unfold metadataSec at hbad
    cases hh : metadataHeader s0 s1 k with
    | error e =>
      rw [hh] at hbad
      injection hbad with hbad
      rw [metadataHeader_error_overflow hh] at hbad
      exact absurd hbad (by decide)
    | ok hdr =>
      rw [hh] at hbad
      dsimp only at hbad
      rw [metadataHeader_ok_length hh] at hbad
      norm_num at hbad
      exact Except.noConfusion hbad

theorem metadata_overflow_unreachable_witness :
    ((metadataHeader 512 0 0 = Except.ok (toBytesLEAux magicNumber 8 ++
        toBytesLEAux (kernelImageStartSec 512 0) 8 ++ toBytesLEAux 0 8)) →
      (toBytesLEAux magicNumber 8 ++ toBytesLEAux (kernelImageStartSec 512 0) 8 ++
        toBytesLEAux 0 8).length = 24) ∧
      metadataSec 512 0 0 ≠ Except.error "Metadata is bigger than a sector" :=
  ⟨(metadata_overflow_unreachable 512 0 0).1 _,
    (metadata_overflow_unreachable 512 0 0).2⟩

set_option maxRecDepth 100000 in
/-- C1: the size invariant fails on the code. With valid inputs (stage-0 is
exactly 512 bytes) but a 100-byte stage-1 and an empty kernel, the output
file is 512 + 100 + 512 + 0 + 512 = 1636 bytes, which is not a multiple of
512, and the script's own final assert fails (non-zero exit). -/
theorem size_invariant_violated :
    Option.map List.length
        (createDiskImage (List.replicate 512 0) (List.replicate 100 170) []).output =
      some 1636 ∧
    1636 % 512 ≠ 0 ∧
    (createDiskImage (List.replicate 512 0) (List.replicate 100 170) []).exitOk
      = false := by
  decide

/-- C2: the kernel-start-sector value the code writes is not
`ceil((512 + S1) / 512) + 1`. For S1 = 100 the code computes
`(512 + 100 + 1) // 512 + (512 + 100 + 1) % 512 = 1 + 101 = 102` and stores
102 in bytes 8..15 of the metadata sector, while the claimed value is 3. -/
theorem kernel_start_sector_bug :
    kernelImageStartSec 512 100 = 102 ∧
    specKernelStartSec 100 = 3 ∧
    Option.map (fun m => decodeLE ((m.drop 8).take 8))
      (metadataSec 512 100 1000).toOption = some 102 ∧
    kernelImageStartSec 512 100 ≠ specKernelStartSec 100 := by
  decide

set_option maxRecDepth 100000 in
/-- C3 counterexample: with a 100-byte stage-1, the metadata sector (located
by its magic signature) begins at byte offset 612, not at the sector-aligned
offset (1 + ceil(100/512)) * 512 = 1024 the claim states, and 612 is not a
multiple of 512. -/
theorem metadata_offset_cex :
    Option.map (fun out => (out.drop 612).take 8)
        (createDiskImage (List.replicate 512 0) (List.replicate 100 170)
          (List.replicate 8 187)).output = some (toBytesLEAux magicNumber 8) ∧
    Option.map (fun out => (out.drop ((1 + (100 + 511) / 512) * 512)).take 8)
        (createDiskImage (List.replicate 512 0) (List.replicate 100 170)
          (List.replicate 8 187)).output ≠ some (toBytesLEAux magicNumber 8) ∧
    612 % 512 ≠ 0 := by
  decide

/-- C3 amended: for every valid input the metadata sector begins immediately
after stage-1, at byte offset 512 + S1; that offset equals the sector-aligned
offset (1 + ceil(S1/512)) * 512 exactly when S1 is a multiple of 512. -/
theorem metadata_offset_amended (stage0 stage1 kernel : List Nat)
    (h0 : stage0.length = 512)
    (h1 : kernelImageStartSec 512 stage1.length < 256 ^ 8)
    (hk : kernel.length < 256 ^ 8) :
    ∃ out m, (createDiskImage stage0 stage1 kernel).output = some out ∧
      metadataSec 512 stage1.length kernel.length = Except.ok m ∧
      (out.drop (512 + stage1.length)).take 512 = m ∧
      (512 + stage1.length = (1 + (stage1.length + 511) / 512) * 512 ↔
        stage1.length % 512 = 0) := by
  obtain ⟨m, hm, hrun⟩ := createDiskImage_valid stage0 stage1 kernel h0 h1 hk
  have hml := metadataSec_length hm
  refine ⟨stage0 ++ stage1 ++ m ++ kernel ++
    List.replicate (512 - kernel.length % 512) 0, m, by rw [hrun], hm, ?_, ?_⟩
  · rw [List.append_assoc, List.append_assoc,
      List.drop_left' (show (stage0 ++ stage1).length = 512 + stage1.length by
        rw [List.length_append, h0]),
      List.take_left' hml]
  · omega

theorem metadata_offset_amended_witness :
    ∃ out m, (createDiskImage (List.replicate 512 3) [] [5]).output = some out ∧
      metadataSec 512 0 1 = Except.ok m ∧
      (out.drop 512).take 512 = m ∧
      (512 + 0 = (1 + (0 + 511) / 512) * 512 ↔ 0 % 512 = 0) :=
  metadata_offset_amended (List.replicate 512 3) [] [5]
    (by rw [List.length_replicate]) (by decide) (by decide)

/-- C4: the metadata sector is exactly 512 bytes: bytes 0..7 are the magic
constant 0x617461646174656d little-endian (ASCII "metadata"), bytes 8..15
the kernel start sector value the assembler computed, little-endian, bytes
16..23 the exact unpadded kernel length little-endian, and the remaining
488 bytes are all zero. -/
theorem metadata_sector_layout (s1 k : Nat)
    (h1 : kernelImageStartSec 512 s1 < 256 ^ 8) (hk : k < 256 ^ 8) :
    ∃ m, metadataSec 512 s1 k = Except.ok m ∧
      m.length = 512 ∧
      m.take 8 = [0x6d, 0x65, 0x74, 0x61, 0x64, 0x61, 0x74, 0x61] ∧
      (m.drop 8).take 8 = toBytesLEAux (kernelImageStartSec 512 s1) 8 ∧
      (m.drop 16).take 8 = toBytesLEAux k 8 ∧
      m.drop 24 = List.replicate 488 0 := by
  refine ⟨_, metadataSec_eq 512 s1 k h1 hk, ?_, ?_, ?_, ?_, ?_⟩
  · rw [List.length_append, List.length_append, List.length_append,
      toBytesLEAux_length, toBytesLEAux_length, toBytesLEAux_length,
      List.length_replicate]
  · rw [List.append_assoc, List.append_assoc,
      List.take_left' (toBytesLEAux_length magicNumber 8)]
    decide
  · rw [List.append_assoc, List.append_assoc,
      List.drop_left' (toBytesLEAux_length magicNumber 8),
      List.take_left' (toBytesLEAux_length _ 8)]
  · rw [List.append_assoc,
      List.drop_left' (show (toBytesLEAux magicNumber 8 ++
          toBytesLEAux (kernelImageStartSec 512 s1) 8).length = 16 by
        rw [List.length_append, toBytesLEAux_length, toBytesLEAux_length]),
      List.take_left' (toBytesLEAux_length k 8)]
  · rw [List.drop_left' (show (toBytesLEAux magicNumber 8 ++
        toBytesLEAux (kernelImageStartSec 512 s1) 8 ++
        toBytesLEAux k 8).length = 24 by
      rw [List.length_append, List.length_append,
        toBytesLEAux_length, toBytesLEAux_length, toBytesLEAux_length])]

theorem metadata_sector_layout_witness :
    ∃ m, metadataSec 512 100 1000 = Except.ok m ∧
      m.length = 512 ∧
      m.take 8 = [0x6d, 0x65, 0x74, 0x61, 0x64, 0x61, 0x74, 0x61] ∧
      (m.drop 8).take 8 = toBytesLEAux (kernelImageStartSec 512 100) 8 ∧
      (m.drop 16).take 8 = toBytesLEAux 1000 8 ∧
      m.drop 24 = List.replicate 488 0 :=
  metadata_sector_layout 100 1000 (by decide) (by decide)

/-- C6: after the kernel payload the assembler appends exactly
`512 - K % 512` zero bytes; when K is already a multiple of 512 this is a
full extra zero sector of 512 bytes. -/
theorem kernel_padding (stage0 stage1 kernel : List Nat)
    (h0 : stage0.length = 512)
    (h1 : kernelImageStartSec 512 stage1.length < 256 ^ 8)
    (hk : kernel.length < 256 ^ 8) :
    ∃ out, (createDiskImage stage0 stage1 kernel).output = some out ∧
      out.drop (512 + stage1.length + 512 + kernel.length) =
        List.replicate (512 - kernel.length % 512) 0 ∧
      (kernel.length % 512 = 0 → 512 - kernel.length % 512 = 512) := by
  obtain ⟨m, hm, hrun⟩ := createDiskImage_valid stage0 stage1 kernel h0 h1 hk
  have hml := metadataSec_length hm
  refine ⟨stage0 ++ stage1 ++ m ++ kernel ++
    List.replicate (512 - kernel.length % 512) 0, by rw [hrun], ?_, ?_⟩
  · rw [List.drop_left' (show (stage0 ++ stage1 ++ m ++ kernel).length =
        512 + stage1.length + 512 + kernel.length by
      rw [List.length_append, List.length_append, List.length_append, h0, hml])]
  · intro hs
    omega

theorem kernel_padding_witness :
    ∃ out, (createDiskImage (List.replicate 512 9) [] []).output = some out ∧
      out.drop 1024 = List.replicate 512 0 ∧
      (0 % 512 = 0 → 512 - 0 % 512 = 512) :=
  kernel_padding (List.replicate 512 9) [] []
    (by rw [List.length_replicate]) (by decide) (by decide)

/-- C7: decoding the three little-endian 64-bit fields of the metadata sector
of a generated image returns exactly the magic constant, the kernel start
sector and the kernel size the assembler used to build it. -/
theorem metadata_roundtrip (s1 k : Nat)
    (h1 : kernelImageStartSec 512 s1 < 256 ^ 8) (hk : k < 256 ^ 8) :
    ∃ m, metadataSec 512 s1 k = Except.ok m ∧
      decodeLE (m.take 8) = magicNumber ∧
      decodeLE ((m.drop 8).take 8) = kernelImageStartSec 512 s1 ∧
      decodeLE ((m.drop 16).take 8) = k := by
  refine ⟨_, metadataSec_eq 512 s1 k h1 hk, ?_, ?_, ?_⟩
  · rw [List.append_assoc, List.append_assoc,
      List.take_left' (toBytesLEAux_length magicNumber 8)]
    exact decodeLE_toBytesLEAux 8 magicNumber magicNumber_lt
  · rw [List.append_assoc, List.append_assoc,
      List.drop_left' (toBytesLEAux_length magicNumber 8),
      List.take_left' (toBytesLEAux_length _ 8)]
    exact decodeLE_toBytesLEAux 8 _ h1
  · rw [List.append_assoc,
      List.drop_left' (show (toBytesLEAux magicNumber 8 ++
          toBytesLEAux (kernelImageStartSec 512 s1) 8).length = 16 by
        rw [List.length_append, toBytesLEAux_length, toBytesLEAux_length]),
      List.take_left' (toBytesLEAux_length k 8)]
    exact decodeLE_toBytesLEAux 8 k hk

theorem metadata_roundtrip_witness :
    ∃ m, metadataSec 512 100 1000 = Except.ok m ∧
      decodeLE (m.take 8) = magicNumber ∧
      decodeLE ((m.drop 8).take 8) = kernelImageStartSec 512 100 ∧
      decodeLE ((m.drop 16).take 8) = 1000 :=
  metadata_roundtrip 100 1000 (by decide) (by decide)

/-- C8: the output image starts with the stage-0 bytes verbatim, immediately
followed at byte offset 512 by the stage-1 bytes verbatim, with no padding
in between. -/
theorem stage0_stage1_prefix (stage0 stage1 kernel : List Nat)
    (h0 : stage0.length = 512)
    (h1 : kernelImageStartSec 512 stage1.length < 256 ^ 8)
    (hk : kernel.length < 256 ^ 8) :
    ∃ out, (createDiskImage stage0 stage1 kernel).output = some out ∧
      out.take 512 = stage0 ∧ (out.drop 512).take stage1.length = stage1 := by
  obtain ⟨m, hm, hrun⟩ := createDiskImage_valid stage0 stage1 kernel h0 h1 hk
  refine ⟨stage0 ++ stage1 ++ m ++ kernel ++
    List.replicate (512 - kernel.length % 512) 0, by rw [hrun], ?_, ?_⟩
  · rw [List.append_assoc, List.append_assoc, List.append_assoc,
      List.take_left' h0]
  · rw [List.append_assoc, List.append_assoc, List.append_assoc,
      List.drop_left' h0, List.take_left' rfl]

theorem stage0_stage1_prefix_witness :
    ∃ out, (createDiskImage (List.replicate 512 1) [7, 8] [9]).output = some out ∧
      out.take 512 = List.replicate 512 1 ∧ (out.drop 512).take 2 = [7, 8] :=
  stage0_stage1_prefix (List.replicate 512 1) [7, 8] [9]
    (by rw [List.length_replicate]) (by decide) (by decide)

end DiskImage
